import Mathlib

/-!
Shallow embedding of the FastAPI prototype service (`src/main.py`): the
in-memory user and item stores, the password hasher, JWT issuance and
verification, and the request handlers, modelled as pure functions over an
explicit application state with an explicit clock (time in seconds).
-/

/-- HTTP-level error raised by a handler (`HTTPException` in the source):
status code, detail message, and the optional WWW-Authenticate header. -/
structure HTTPError where
  status : Nat
  detail : String
  wwwAuthenticate : Option String
  deriving DecidableEq

/-- Stored user record: the dict placed in `users_db` by `register`
(`user.dict()` with the password replaced by its hash, plus `id` and
`created_at`). -/
structure UserRecord where
  username : String
  email : String
  full_name : Option String
  password : String
  id : Nat
  created_at : Nat
  deriving DecidableEq

/-- Stored item record: the dict placed in `items_db` by `create_item`
(`item.dict()` plus `id`, `owner_id`, `created_at`). The source's `price`
is a Python float on which no arithmetic is ever performed; it is modelled
as a rational number. -/
structure ItemRecord where
  title : String
  description : Option String
  price : Rat
  id : Nat
  owner_id : Nat
  created_at : Nat
  deriving DecidableEq

/-- Request body of `POST /register` (`UserCreate` in the source). -/
structure UserCreate where
  username : String
  email : String
  full_name : Option String
  password : String
  deriving DecidableEq

/-- Request body of item creation and update (`ItemCreate` in the source). -/
structure ItemCreate where
  title : String
  description : Option String
  price : Rat
  deriving DecidableEq

/-- Request body of `POST /login` (`UserLogin` in the source). -/
structure UserLogin where
  username : String
  password : String
  deriving DecidableEq

/-- Python dict lookup (`db.get(k)` / `db[k]`) over an insertion-ordered
association list. -/
def dictLookup {α β : Type} [DecidableEq α] (db : List (α × β)) (k : α) : Option β :=
  (db.find? (fun p => p.1 = k)).map Prod.snd

/-- Python dict assignment `db[k] = v`: an existing key keeps its insertion
position and gets the new value; a new key is appended at the end. -/
def dictInsert {α β : Type} [DecidableEq α] (db : List (α × β)) (k : α) (v : β) :
    List (α × β) :=
  if db.any (fun p => p.1 = k) then
    db.map (fun p => if p.1 = k then (k, v) else p)
  else
    db ++ [(k, v)]

/-- Python dict deletion `del db[k]`. -/
def dictDelete {α β : Type} [DecidableEq α] (db : List (α × β)) (k : α) :
    List (α × β) :=
  db.filter (fun p => p.1 ≠ k)

/-- Decidable equality of handler results. -/
instance exceptDecEq {e a : Type} [DecidableEq e] [DecidableEq a] :
    DecidableEq (Except e a)
  | Except.error x, Except.error y =>
    if h : x = y then isTrue (by rw [h]) else
      isFalse (by intro hc; injection hc with h2; exact h h2)
  | Except.error _, Except.ok _ => isFalse (by intro hc; exact Except.noConfusion hc)
  | Except.ok _, Except.error _ => isFalse (by intro hc; exact Except.noConfusion hc)
  | Except.ok x, Except.ok y =>
    if h : x = y then isTrue (by rw [h]) else
      isFalse (by intro hc; injection hc with h2; exact h h2)

/-- Python `list(db.values())`: the values in insertion order. -/
def dictValues {α β : Type} (db : List (α × β)) : List β :=
  db.map Prod.snd

/-- Modelled from the spec: the Credential Hasher's `hash` (the external
`passlib` bcrypt library in the source). The salt is elided, so the model is
deterministic; no claim under verification depends on salting. -/
def get_password_hash (password : String) : String :=
  "bcrypt-sha256:" ++ password

/-- Modelled from the spec: the Credential Hasher's `verify`
(`pwd_context.verify` in the source): true exactly when the plaintext is the
one that produced the stored hash. -/
def verify_password (plain_password : String) (hashed_password : String) : Bool :=
  hashed_password == get_password_hash plain_password

/-- JWT claim set as used by the source: an optional `sub` (subject username)
and an optional `exp` (absolute expiry, seconds). -/
structure TokenPayload where
  sub : Option String
  exp : Option Nat
  deriving DecidableEq

/-- Modelled from the spec: the HS256 signature computed by the external
`jwt` library — an unforgeable-in-the-model MAC of the claim set under the
signing secret. -/
def hs256Sign (secret : String) (p : TokenPayload) : String :=
  "HS256." ++ (match p.sub with | none => "-" | some s => "s" ++ s) ++ "."
    ++ (match p.exp with | none => "-" | some e => toString e) ++ "." ++ secret

/-- A bearer token as presented to the service: either a structurally valid
JWT carrying a claim set and a signature, or an unparseable blob. -/
inductive Jwt where
  | signed (payload : TokenPayload) (sig : String)
  | malformed (raw : String)
  deriving DecidableEq

/-- Failure modes of `jwt.decode` (all subclasses of `PyJWTError`). -/
inductive JwtError where
  | decodeError
  | invalidSignature
  | expiredSignature
  deriving DecidableEq

/-- Model of `jwt.encode(payload, secret)`: sign the claim set. -/
def jwt_encode (payload : TokenPayload) (secret : String) : Jwt :=
  Jwt.signed payload (hs256Sign secret payload)

/-- Model of `jwt.decode(token, secret)` evaluated at time `nowT`: reject
unparseable tokens, then reject a wrong signature, then reject an embedded
expiry that is not in the future (PyJWT raises `ExpiredSignatureError` when
`exp <= now`); otherwise return the claim set. -/
def jwt_decode (token : Jwt) (secret : String) (nowT : Nat) :
    Except JwtError TokenPayload :=
  match token with
  | Jwt.malformed _ => Except.error JwtError.decodeError
  | Jwt.signed p sig =>
    if sig ≠ hs256Sign secret p then Except.error JwtError.invalidSignature
    else
      match p.exp with
      | some e => if e ≤ nowT then Except.error JwtError.expiredSignature else Except.ok p
      | none => Except.ok p

/-- Process-wide signing secret (default value of the `SECRET_KEY` env var). -/
def SECRET_KEY : String := "your-secret-key-here"

/-- `ACCESS_TOKEN_EXPIRE_MINUTES = 30`. -/
def ACCESS_TOKEN_EXPIRE_MINUTES : Nat := 30

/-- `create_access_token(data, expires_delta)`: copy the claim set, set
`exp` to now + delta (or now + 15 minutes when no delta is supplied), and
sign with the process secret. Durations are in seconds. -/
def create_access_token (nowT : Nat) (data : TokenPayload)
    (expires_delta : Option Nat) : Jwt :=
  let expire : Nat :=
    match expires_delta with
    | some d => nowT + d
    | none => nowT + 15 * 60
  jwt_encode { data with exp := some expire } SECRET_KEY

/-- The whole mutable state of the process: `users_db` (username → record)
and `items_db` (item id → record), both insertion-ordered Python dicts. -/
structure AppState where
  users_db : List (String × UserRecord)
  items_db : List (Nat × ItemRecord)
  deriving DecidableEq

/-- Both stores start empty. -/
def initialState : AppState := { users_db := [], items_db := [] }

/-- `HTTPException(400, "Username already registered")`. -/
def usernameTakenError : HTTPError :=
  { status := 400, detail := "Username already registered", wwwAuthenticate := none }

/-- The single 401 raised by `login` for both an unknown username and a wrong
password, with a WWW-Authenticate Bearer header. -/
def loginUnauthorizedError : HTTPError :=
  { status := 401, detail := "Incorrect username or password", wwwAuthenticate := some "Bearer" }

/-- The 401 raised by `get_current_user` for a missing subject or any
`PyJWTError`. -/
def credentialsError : HTTPError :=
  { status := 401, detail := "Could not validate credentials", wwwAuthenticate := some "Bearer" }

/-- The 401 raised by `get_current_user` when the token's subject is not in
the user store. -/
def userGoneError : HTTPError :=
  { status := 401, detail := "User not found", wwwAuthenticate := some "Bearer" }

/-- `HTTPException(404, "Item not found")`. -/
def itemNotFoundError : HTTPError :=
  { status := 404, detail := "Item not found", wwwAuthenticate := none }

/-- `HTTPException(403, "Not enough permissions")`. -/
def forbiddenError : HTTPError :=
  { status := 403, detail := "Not enough permissions", wwwAuthenticate := none }

/-- `POST /register`: reject a duplicate username, otherwise hash the
password, assign id `len(users_db) + 1`, stamp `created_at`, store and return
the record. Returns the handler result together with the resulting state. -/
def register (nowT : Nat) (st : AppState) (user : UserCreate) :
    Except HTTPError UserRecord × AppState :=
  if (dictLookup st.users_db user.username).isSome then
    (Except.error usernameTakenError, st)
  else
    let user_data : UserRecord :=
      { username := user.username
        email := user.email
        full_name := user.full_name
        password := get_password_hash user.password
        id := st.users_db.length + 1
        created_at := nowT }
    (Except.ok user_data,
      { st with users_db := dictInsert st.users_db user.username user_data })

/-- Success body of `POST /login`. -/
structure TokenResponse where
  access_token : Jwt
  token_type : String
  deriving DecidableEq

/-- `POST /login`: look the username up; if absent, or the password fails
verification, raise the one Unauthorized error; otherwise issue a token for
the stored username with a 30-minute expiry. Read-only on the state. -/
def login (nowT : Nat) (st : AppState) (user_credentials : UserLogin) :
    Except HTTPError TokenResponse :=
  match dictLookup st.users_db user_credentials.username with
  | none => Except.error loginUnauthorizedError
  | some user =>
    if verify_password user_credentials.password user.password then
      Except.ok
        { access_token :=
            create_access_token nowT { sub := some user.username, exp := none }
              (some (ACCESS_TOKEN_EXPIRE_MINUTES * 60))
          token_type := "bearer" }
    else Except.error loginUnauthorizedError

/-- The Auth Guard `get_current_user`: decode the bearer token (any decode
failure maps to the uniform credentials error), require a `sub` claim, and
resolve it in the user store. -/
def get_current_user (nowT : Nat) (st : AppState) (token : Jwt) :
    Except HTTPError UserRecord :=
  match jwt_decode token SECRET_KEY nowT with
  | Except.error _ => Except.error credentialsError
  | Except.ok payload =>
    match payload.sub with
    | none => Except.error credentialsError
    | some username =>
      match dictLookup st.users_db username with
      | none => Except.error userGoneError
      | some user => Except.ok user

/-- `POST /items/`: assign id `len(items_db) + 1`, tag the authenticated
user as owner, stamp `created_at`, store and return the record. -/
def create_item (nowT : Nat) (st : AppState) (item : ItemCreate)
    (current_user : UserRecord) : Except HTTPError ItemRecord × AppState :=
  let item_data : ItemRecord :=
    { title := item.title
      description := item.description
      price := item.price
      id := st.items_db.length + 1
      owner_id := current_user.id
      created_at := nowT }
  (Except.ok item_data,
    { st with items_db := dictInsert st.items_db item_data.id item_data })

/-- Clamp a Python slice bound to `[0, n]`, negative indices counting from
the end, following CPython slice semantics. -/
def pyBound (n : Nat) (i : Int) : Nat :=
  if i < 0 then ((n : Int) + i).toNat else min i.toNat n

/-- Python `l[a : b]`. -/
def pySlice {α : Type} (l : List α) (a b : Int) : List α :=
  (l.take (pyBound l.length b)).drop (pyBound l.length a)

/-- `GET /items/`: the slice `items[skip : skip + limit]` of the store's
values in insertion order. Never errors. -/
def get_items (st : AppState) (skip : Int) (limit : Int) : List ItemRecord :=
  pySlice (dictValues st.items_db) skip (skip + limit)

/-- `GET /items/{item_id}`: 404 when the id is absent, else the record. -/
def get_item (st : AppState) (item_id : Nat) : Except HTTPError ItemRecord :=
  match dictLookup st.items_db item_id with
  | none => Except.error itemNotFoundError
  | some it => Except.ok it

/-- `PUT /items/{item_id}`: 404 when the id is absent; 403 when the stored
owner differs from the authenticated user; otherwise store a record with the
new title/description/price, the same id, the requester as owner, and the
stored `created_at`. -/
def update_item (st : AppState) (item_id : Nat) (item : ItemCreate)
    (current_user : UserRecord) : Except HTTPError ItemRecord × AppState :=
  match dictLookup st.items_db item_id with
  | none => (Except.error itemNotFoundError, st)
  | some stored =>
    if stored.owner_id ≠ current_user.id then (Except.error forbiddenError, st)
    else
      let item_data : ItemRecord :=
        { title := item.title
          description := item.description
          price := item.price
          id := item_id
          owner_id := current_user.id
          created_at := stored.created_at }
      (Except.ok item_data,
        { st with items_db := dictInsert st.items_db item_id item_data })

/-- `DELETE /items/{item_id}`: 404 when the id is absent; 403 when the
stored owner differs from the authenticated user; otherwise remove the
record and return the confirmation message. -/
def delete_item (st : AppState) (item_id : Nat) (current_user : UserRecord) :
    Except HTTPError String × AppState :=
  match dictLookup st.items_db item_id with
  | none => (Except.error itemNotFoundError, st)
  | some stored =>
    if stored.owner_id ≠ current_user.id then (Except.error forbiddenError, st)
    else
      (Except.ok "Item deleted successfully",
        { st with items_db := dictDelete st.items_db item_id })

/-- JSON rendering of an optional string field. -/
def encodeOptString : Option String → String
  | none => "null"
  | some s => s

/-- The `response_model=User` serialization boundary: FastAPI re-validates a
handler's return value against the `User` pydantic model and emits exactly
that model's fields (`is_active` filled from its default `True`), dropping
everything else — in particular the stored `password` hash. -/
def serializeUser (r : UserRecord) : List (String × String) :=
  [("username", r.username),
   ("email", r.email),
   ("full_name", encodeOptString r.full_name),
   ("id", toString r.id),
   ("is_active", "true"),
   ("created_at", toString r.created_at)]

/-- `POST /register` as seen by the caller: the handler result passed
through the `response_model=User` serialization boundary. -/
def registerEndpoint (nowT : Nat) (st : AppState) (user : UserCreate) :
    Except HTTPError (List (String × String)) × AppState :=
  ((register nowT st user).1.map serializeUser, (register nowT st user).2)

/-- `GET /users/me` as seen by the caller: the authenticated user's record
through the `response_model=User` boundary. -/
def read_users_me (nowT : Nat) (st : AppState) (token : Jwt) :
    Except HTTPError (List (String × String)) :=
  (get_current_user nowT st token).map serializeUser

/-- `GET /users` as seen by the caller: every stored user through the
`response_model=List[User]` boundary. -/
def get_users (st : AppState) : List (List (String × String)) :=
  (dictValues st.users_db).map serializeUser

/-- One API operation in a trace. Item operations act on behalf of the
stored user the Auth Guard resolved (the `actor` username) and are no-ops
when that user does not exist. -/
inductive Op where
  | opRegister (nowT : Nat) (user : UserCreate)
  | opCreateItem (nowT : Nat) (actor : String) (item : ItemCreate)
  | opUpdateItem (item_id : Nat) (item : ItemCreate) (actor : String)
  | opDeleteItem (item_id : Nat) (actor : String)
  deriving DecidableEq

/-- Apply one operation to the state, keeping only the state change. -/
def runOp (st : AppState) (op : Op) : AppState :=
  match op with
  | Op.opRegister nowT user => (register nowT st user).2
  | Op.opCreateItem nowT actor item =>
    match dictLookup st.users_db actor with
    | some cu => (create_item nowT st item cu).2
    | none => st
  | Op.opUpdateItem item_id item actor =>
    match dictLookup st.users_db actor with
    | some cu => (update_item st item_id item cu).2
    | none => st
  | Op.opDeleteItem item_id actor =>
    match dictLookup st.users_db actor with
    | some cu => (delete_item st item_id cu).2
    | none => st

/-- The state reached from empty stores by a sequence of operations. -/
def runOps (ops : List Op) : AppState :=
  ops.foldl runOp initialState

/-! ## Concrete fixtures used in examples -/

/-- Registration input from the spec's end-to-end scenario. -/
def aliceCreate : UserCreate :=
  { username := "alice", email := "a@example.com", full_name := some "Alice",
    password := "longenough1" }

/-- A second, distinct registration input. -/
def bobCreate : UserCreate :=
  { username := "bob", email := "b@example.com", full_name := none,
    password := "alsolongenough2" }

/-- Alice's stored record as `register` produces it at time 0 on empty stores. -/
def aliceStored : UserRecord :=
  { username := "alice", email := "a@example.com", full_name := some "Alice",
    password := get_password_hash "longenough1", id := 1, created_at := 0 }

/-- Bob's stored record as `register` produces it at time 1 after alice. -/
def bobStored : UserRecord :=
  { username := "bob", email := "b@example.com", full_name := none,
    password := get_password_hash "alsolongenough2", id := 2, created_at := 1 }

/-- Item input from the spec's end-to-end scenario. -/
def widgetCreate : ItemCreate := { title := "Widget", description := none, price := 9 }

/-- A second item input. -/
def gadgetCreate : ItemCreate := { title := "Gadget", description := some "small", price := 5 }

/-- A third item input. -/
def gizmoCreate : ItemCreate := { title := "Gizmo", description := none, price := 7 }

/-- The state after registering alice on empty stores at time 0. -/
def stAlice : AppState := (register 0 initialState aliceCreate).2

/-- Trace: register alice and bob, then alice creates a Widget (item id 1). -/
def twoUserOps : List Op :=
  [Op.opRegister 0 aliceCreate, Op.opRegister 1 bobCreate,
   Op.opCreateItem 2 "alice" widgetCreate]

/-- The Widget record stored by the `twoUserOps` trace. -/
def widgetStored : ItemRecord :=
  { title := "Widget", description := none, price := 9, id := 1,
    owner_id := 1, created_at := 2 }

/-- Trace: register alice, who creates three items. -/
def threeItemOps : List Op :=
  [Op.opRegister 0 aliceCreate,
   Op.opCreateItem 1 "alice" widgetCreate,
   Op.opCreateItem 2 "alice" gadgetCreate,
   Op.opCreateItem 3 "alice" gizmoCreate]

/-- Trace exhibiting item-id reuse: alice creates items 1 and 2, then
deletes item 1, leaving `len(items_db) = 1` while id 2 is still in use. -/
def idReuseOps : List Op :=
  [Op.opRegister 0 aliceCreate,
   Op.opCreateItem 1 "alice" widgetCreate,
   Op.opCreateItem 2 "alice" gadgetCreate,
   Op.opDeleteItem 1 "alice"]

/-! ## Dictionary lemmas -/

theorem dictLookup_nil {α β : Type} [DecidableEq α] (k : α) :
    dictLookup ([] : List (α × β)) k = none := rfl

theorem dictLookup_cons {α β : Type} [DecidableEq α] (p : α × β) (db : List (α × β)) (k : α) :
    dictLookup (p :: db) k = if p.1 = k then some p.2 else dictLookup db k := by
  by_cases h : p.1 = k <;> simp [dictLookup, List.find?_cons, h]

theorem dictLookup_eq_none {α β : Type} [DecidableEq α] (db : List (α × β)) (k : α) :
    dictLookup db k = none ↔ ∀ p ∈ db, p.1 ≠ k := by
  induction db with
  | nil => simp [dictLookup_nil]
  | cons p db ih =>
    rw [dictLookup_cons]
    by_cases h : p.1 = k <;> simp [h, ih]

theorem mem_of_dictLookup {α β : Type} [DecidableEq α] {db : List (α × β)} {k : α} {v : β}
    (h : dictLookup db k = some v) : (k, v) ∈ db := by
  induction db with
  | nil => simp [dictLookup_nil] at h
  | cons p db ih =>
    rw [dictLookup_cons] at h
    by_cases hp : p.1 = k
    · rw [if_pos hp] at h
      obtain ⟨a, b⟩ := p
      obtain rfl : b = v := by simpa using h
      obtain rfl : a = k := hp
      exact List.mem_cons_self _ _
    · rw [if_neg hp] at h
      exact List.mem_cons_of_mem _ (ih h)

theorem dictInsert_of_not_mem {α β : Type} [DecidableEq α] {db : List (α × β)} {k : α} (v : β)
    (h : dictLookup db k = none) : dictInsert db k v = db ++ [(k, v)] := by
  have h' := (dictLookup_eq_none db k).mp h
  rw [dictInsert, if_neg]
  simp only [List.any_eq_true, decide_eq_true_eq, not_exists]
  intro p hc
  exact h' p hc.1 hc.2

theorem not_any_key {α β : Type} [DecidableEq α] {db : List (α × β)} {k : α}
    (h : ¬ db.any (fun p => p.1 = k) = true) : ∀ p ∈ db, p.1 ≠ k := by
  simp only [List.any_eq_true, decide_eq_true_eq, not_exists] at h
  intro p hp
  exact fun hk => h p ⟨hp, hk⟩

theorem dictLookup_map_replace_self {α β : Type} [DecidableEq α] {db : List (α × β)} {k : α}
    (v : β) (h : db.any (fun p => p.1 = k) = true) :
    dictLookup (db.map fun p => if p.1 = k then (k, v) else p) k = some v := by
  induction db with
  | nil => simp at h
  | cons p db ih =>
    by_cases hp : p.1 = k
    · simp [dictLookup_cons, hp]
    · have h' : db.any (fun p => p.1 = k) = true := by simpa [List.any_cons, hp] using h
      simp [dictLookup_cons, hp, ih h']

theorem dictLookup_map_replace_ne {α β : Type} [DecidableEq α] {db : List (α × β)} {k j : α}
    (v : β) (hne : j ≠ k) :
    dictLookup (db.map fun p => if p.1 = k then (k, v) else p) j = dictLookup db j := by
  induction db with
  | nil => simp
  | cons p db ih =>
    by_cases hp : p.1 = k
    · have hpj : ¬ p.1 = j := by rw [hp]; exact fun hkj => hne hkj.symm
      have hkj : ¬ k = j := fun hkj => hne hkj.symm
      simp only [List.map_cons, if_pos hp, dictLookup_cons]
      rw [if_neg hkj, if_neg hpj]
      exact ih
    · simp only [List.map_cons, if_neg hp, dictLookup_cons]
      by_cases hpj : p.1 = j
      · rw [if_pos hpj, if_pos hpj]
      · rw [if_neg hpj, if_neg hpj]
        exact ih

theorem dictLookup_append_single_self {α β : Type} [DecidableEq α] {db : List (α × β)} {k : α}
    (v : β) (h : ∀ p ∈ db, p.1 ≠ k) :
    dictLookup (db ++ [(k, v)]) k = some v := by
  induction db with
  | nil => simp [dictLookup_cons]
  | cons p db ih =>
    have hp : p.1 ≠ k := h p (List.mem_cons_self _ _)
    simp only [List.cons_append, dictLookup_cons, if_neg hp]
    exact ih fun q hq => h q (List.mem_cons_of_mem _ hq)

theorem dictLookup_append_single_ne {α β : Type} [DecidableEq α] {db : List (α × β)} {k j : α}
    (v : β) (hne : j ≠ k) :
    dictLookup (db ++ [(k, v)]) j = dictLookup db j := by
  induction db with
  | nil =>
    have hkj : ¬ k = j := fun hkj => hne hkj.symm
    simp [dictLookup_cons, hkj]
  | cons p db ih =>
    by_cases hpj : p.1 = j <;> simp [dictLookup_cons, hpj, ih]

theorem dictLookup_dictInsert_self {α β : Type} [DecidableEq α] (db : List (α × β)) (k : α)
    (v : β) : dictLookup (dictInsert db k v) k = some v := by
  rw [dictInsert]
  split
  case isTrue h => exact dictLookup_map_replace_self v h
  case isFalse h => exact dictLookup_append_single_self v (not_any_key h)

theorem dictLookup_dictInsert_ne {α β : Type} [DecidableEq α] (db : List (α × β)) {k j : α}
    (v : β) (hne : j ≠ k) : dictLookup (dictInsert db k v) j = dictLookup db j := by
  rw [dictInsert]
  split
  · exact dictLookup_map_replace_ne v hne
  · exact dictLookup_append_single_ne v hne

theorem dictLookup_dictDelete {α β : Type} [DecidableEq α] (db : List (α × β)) (k j : α) :
    dictLookup (dictDelete db k) j = if j = k then none else dictLookup db j := by
  induction db with
  | nil => by_cases hjk : j = k <;> simp [dictDelete, dictLookup_nil, hjk]
  | cons p db ih =>
    simp only [dictDelete] at ih ⊢
    rw [List.filter_cons]
    by_cases hpk : p.1 = k
    · rw [if_neg (by simp [hpk]), ih]
      by_cases hjk : j = k
      · rw [if_pos hjk, if_pos hjk]
      · have hpj : ¬ p.1 = j := fun hpj => hjk (by rw [← hpj, hpk])
        rw [if_neg hjk, if_neg hjk, dictLookup_cons, if_neg hpj]
    · rw [if_pos (by simp [hpk]), dictLookup_cons]
      by_cases hpj : p.1 = j
      · have hjk : ¬ j = k := fun hjk => hpk (hpj.trans hjk)
        rw [if_pos hpj, if_neg hjk, dictLookup_cons, if_pos hpj]
      · rw [if_neg hpj, ih]
        by_cases hjk : j = k
        · rw [if_pos hjk, if_pos hjk]
        · rw [if_neg hjk, if_neg hjk, dictLookup_cons, if_neg hpj]

theorem mem_dictInsert {α β : Type} [DecidableEq α] {db : List (α × β)} {k : α} {v : β}
    {p : α × β} (h : p ∈ dictInsert db k v) : p = (k, v) ∨ p ∈ db := by
  rw [dictInsert] at h
  split at h
  · obtain ⟨q, hq, rfl⟩ := List.mem_map.mp h
    by_cases hk : q.1 = k
    · left; simp [hk]
    · right; simpa [hk] using hq
  · rcases List.mem_append.mp h with h | h
    · right; exact h
    · left; simpa using h

theorem keys_dictInsert_nodup {α β : Type} [DecidableEq α] {db : List (α × β)} (k : α) (v : β)
    (h : (db.map Prod.fst).Nodup) : ((dictInsert db k v).map Prod.fst).Nodup := by
  rw [dictInsert]
  split
  case isTrue hany =>
    have hmap : (db.map fun p => if p.1 = k then (k, v) else p).map Prod.fst
        = db.map Prod.fst := by
      rw [List.map_map]
      apply List.map_congr_left
      intro q _
      by_cases hk : q.1 = k <;> simp [hk]
    rw [hmap]
    exact h
  case isFalse hany =>
    have hk : k ∉ db.map Prod.fst := by
      intro hmem
      obtain ⟨q, hq, hqk⟩ := List.mem_map.mp hmem
      exact not_any_key hany q hq hqk
    rw [List.map_append]
    simp only [List.map_cons, List.map_nil]
    rw [List.nodup_append]
    refine ⟨h, List.nodup_singleton _, ?_⟩
    intro a ha hak
    rw [List.mem_singleton] at hak
    exact hk (hak ▸ ha)

/-! ## Store invariants over reachable states -/

/-- State invariant preserved by every API operation: usernames key the user
store uniquely, user ids are bounded by the store's size and pairwise
distinct, and every stored item's `id` field equals its key. -/
structure StoreInv (st : AppState) : Prop where
  userKeysNodup : (st.users_db.map Prod.fst).Nodup
  userIdBound : ∀ p ∈ st.users_db, p.2.id ≤ st.users_db.length
  userIdsNodup : (st.users_db.map (fun p => p.2.id)).Nodup
  itemKeyId : ∀ p ∈ st.items_db, p.2.id = p.1
  itemKeysNodup : (st.items_db.map Prod.fst).Nodup

theorem storeInv_initial : StoreInv initialState := by
  constructor <;> simp [initialState]

theorem storeInv_items_dictInsert {st : AppState} (h : StoreInv st) (v : ItemRecord)
    (hid : v.id = st.items_db.length + 1) :
    StoreInv { st with items_db := dictInsert st.items_db (st.items_db.length + 1) v } := by
  refine ⟨h.userKeysNodup, h.userIdBound, h.userIdsNodup, ?_, ?_⟩
  · intro p hp
    rcases mem_dictInsert hp with rfl | hp
    · simpa using hid
    · exact h.itemKeyId p hp
  · exact keys_dictInsert_nodup _ _ h.itemKeysNodup

theorem storeInv_items_update {st : AppState} (h : StoreInv st) (item_id : Nat)
    (v : ItemRecord) (hid : v.id = item_id) :
    StoreInv { st with items_db := dictInsert st.items_db item_id v } := by
  refine ⟨h.userKeysNodup, h.userIdBound, h.userIdsNodup, ?_, ?_⟩
  · intro p hp
    rcases mem_dictInsert hp with rfl | hp
    · simpa using hid
    · exact h.itemKeyId p hp
  · exact keys_dictInsert_nodup _ _ h.itemKeysNodup

theorem storeInv_items_dictDelete {st : AppState} (h : StoreInv st) (item_id : Nat) :
    StoreInv { st with items_db := dictDelete st.items_db item_id } := by
  refine ⟨h.userKeysNodup, h.userIdBound, h.userIdsNodup, ?_, ?_⟩
  · intro p hp
    exact h.itemKeyId p (List.mem_of_mem_filter hp)
  · exact ((List.filter_sublist st.items_db).map Prod.fst).nodup h.itemKeysNodup

theorem storeInv_register {st : AppState} (h : StoreInv st) (nowT : Nat) (user : UserCreate) :
    StoreInv (register nowT st user).2 := by
  rw [register]
  by_cases hmem : (dictLookup st.users_db user.username).isSome
  · rw [if_pos hmem]
    exact h
  · rw [if_neg hmem]
    have hnone : dictLookup st.users_db user.username = none := by
      cases hl : dictLookup st.users_db user.username
      · rfl
      · rw [hl] at hmem
        simp at hmem
    have hkeys := (dictLookup_eq_none _ _).mp hnone
    simp only
    rw [dictInsert_of_not_mem _ hnone]
    refine ⟨?_, ?_, ?_, h.itemKeyId, h.itemKeysNodup⟩
    · rw [List.map_append]
      simp only [List.map_cons, List.map_nil]
      rw [List.nodup_append]
      refine ⟨h.userKeysNodup, List.nodup_singleton _, ?_⟩
      intro a ha hak
      rw [List.mem_singleton] at hak
      obtain ⟨q, hq, hqa⟩ := List.mem_map.mp ha
      exact hkeys q hq (hqa.trans hak)
    · intro p hp
      rw [List.length_append, List.length_singleton]
      rcases List.mem_append.mp hp with hp | hp
      · exact le_trans (h.userIdBound p hp) (Nat.le_succ _)
      · rw [List.mem_singleton] at hp
        subst hp
        simp
    · rw [List.map_append]
      simp only [List.map_cons, List.map_nil]
      rw [List.nodup_append]
      refine ⟨h.userIdsNodup, List.nodup_singleton _, ?_⟩
      intro a ha hak
      rw [List.mem_singleton] at hak
      obtain ⟨q, hq, hqa⟩ := List.mem_map.mp ha
      have hle : q.2.id ≤ st.users_db.length := h.userIdBound q hq
      rw [hqa, hak] at hle
      simp at hle

theorem storeInv_runOp (st : AppState) (op : Op) (h : StoreInv st) :
    StoreInv (runOp st op) := by
  cases op with
  | opRegister nowT user => exact storeInv_register h nowT user
  | opCreateItem nowT actor item =>
    rw [runOp]
    cases dictLookup st.users_db actor with
    | none => exact h
    | some cu =>
      simp only [create_item]
      exact storeInv_items_dictInsert h _ rfl
  | opUpdateItem item_id item actor =>
    rw [runOp]
    cases dictLookup st.users_db actor with
    | none => exact h
    | some cu =>
      show StoreInv (update_item st item_id item cu).2
      rw [update_item.eq_def]
      cases dictLookup st.items_db item_id with
      | none => exact h
      | some stored =>
        dsimp only
        by_cases hown : stored.owner_id ≠ cu.id
        · rw [if_pos hown]
          exact h
        · rw [if_neg hown]
          exact storeInv_items_update h item_id _ rfl
  | opDeleteItem item_id actor =>
    rw [runOp]
    cases dictLookup st.users_db actor with
    | none => exact h
    | some cu =>
      show StoreInv (delete_item st item_id cu).2
      rw [delete_item.eq_def]
      cases dictLookup st.items_db item_id with
      | none => exact h
      | some stored =>
        dsimp only
        by_cases hown : stored.owner_id ≠ cu.id
        · rw [if_pos hown]
          exact h
        · rw [if_neg hown]
          exact storeInv_items_dictDelete h item_id

theorem storeInv_foldl (ops : List Op) (st : AppState) (h : StoreInv st) :
    StoreInv (ops.foldl runOp st) := by
  induction ops generalizing st with
  | nil => exact h
  | cons op ops ih => exact ih _ (storeInv_runOp st op h)

/-- Every state reachable from empty stores satisfies the invariant. -/
theorem storeInv_runOps (ops : List Op) : StoreInv (runOps ops) :=
  storeInv_foldl ops initialState storeInv_initial

/-- In an invariant state, users stored under different usernames carry
different ids. -/
theorem userIds_ne {st : AppState} (h : StoreInv st) {ua ub : String}
    {ra rb : UserRecord} (ha : dictLookup st.users_db ua = some ra)
    (hb : dictLookup st.users_db ub = some rb) (hne : ua ≠ ub) : ra.id ≠ rb.id := by
  have hma : (ua, ra) ∈ st.users_db := mem_of_dictLookup ha
  have hmb : (ub, rb) ∈ st.users_db := mem_of_dictLookup hb
  have hpw : st.users_db.Pairwise (fun p q => p.2.id ≠ q.2.id) := by
    have hn := h.userIdsNodup
    rw [List.Nodup, List.pairwise_map] at hn
    exact hn
  have hsym : Symmetric (fun p q : String × UserRecord => p.2.id ≠ q.2.id) :=
    fun _ _ hpq => hpq.symm
  exact hpw.forall hsym hma hmb (fun hEq => hne (congrArg Prod.fst hEq))

/-! ## Handler-level helper lemmas -/

theorem register_ok {nowT : Nat} {st : AppState} {user : UserCreate} {r : UserRecord}
    {st2 : AppState} (h : register nowT st user = (Except.ok r, st2)) :
    dictLookup st.users_db user.username = none ∧
    r = { username := user.username, email := user.email, full_name := user.full_name,
          password := get_password_hash user.password, id := st.users_db.length + 1,
          created_at := nowT } ∧
    st2 = { st with users_db := dictInsert st.users_db user.username r } := by
  rw [register] at h
  by_cases hmem : (dictLookup st.users_db user.username).isSome
  · rw [if_pos hmem] at h
    simp at h
  · rw [if_neg hmem] at h
    have hnone : dictLookup st.users_db user.username = none := by
      cases hl : dictLookup st.users_db user.username
      · rfl
      · rw [hl] at hmem
        simp at hmem
    simp only [Prod.mk.injEq, Except.ok.injEq] at h
    exact ⟨hnone, h.1.symm, by rw [h.2.symm, h.1]⟩

theorem serializeUser_keys (r : UserRecord) :
    (serializeUser r).map Prod.fst
      = ["username", "email", "full_name", "id", "is_active", "created_at"] := rfl

theorem pyBound_natCast (n a : Nat) : pyBound n (a : Int) = min a n := by
  rw [pyBound, if_neg (by omega)]
  omega

/-! ## Claim theorems -/

/-- Claim C2: registering an already-registered username fails with the
UsernameTaken error (status 400) and leaves the user store — in particular
the first user's stored record — unchanged. -/
theorem register_duplicate_username_rejected (nowT nowT2 : Nat) (st st2 : AppState)
    (user user2 : UserCreate) (stored : UserRecord)
    (h : register nowT st user = (Except.ok stored, st2))
    (hsame : user2.username = user.username) :
    register nowT2 st2 user2 = (Except.error usernameTakenError, st2) ∧
    usernameTakenError.status = 400 ∧
    dictLookup st2.users_db user.username = some stored := by
  obtain ⟨hnone, hrec, hst2⟩ := register_ok h
  have hlook : dictLookup st2.users_db user.username = some stored := by
    rw [hst2]
    exact dictLookup_dictInsert_self _ _ _
  refine ⟨?_, rfl, hlook⟩
  rw [register, hsame, hlook]
  rfl

/-- Claim C10: when the requester owns the stored item, DeleteItem succeeds
with the confirmation message, removes exactly that id (a subsequent GetItem
fails NotFound with status 404), and leaves every other stored item intact. -/
theorem delete_item_contract (st : AppState) (item_id : Nat) (cu : UserRecord)
    (stored : ItemRecord) (hst : dictLookup st.items_db item_id = some stored)
    (hown : stored.owner_id = cu.id) :
    (delete_item st item_id cu).1 = Except.ok "Item deleted successfully" ∧
    dictLookup (delete_item st item_id cu).2.items_db item_id = none ∧
    get_item (delete_item st item_id cu).2 item_id = Except.error itemNotFoundError ∧
    itemNotFoundError.status = 404 ∧
    (∀ j, j ≠ item_id →
      dictLookup (delete_item st item_id cu).2.items_db j = dictLookup st.items_db j) := by
  have hdel : delete_item st item_id cu
      = (Except.ok "Item deleted successfully",
         { st with items_db := dictDelete st.items_db item_id }) := by
    rw [delete_item.eq_def, hst]
    dsimp only
    rw [if_neg (fun hne => hne hown)]
  rw [hdel]
  have hnone : dictLookup (dictDelete st.items_db item_id) item_id = none := by
    rw [dictLookup_dictDelete, if_pos rfl]
  refine ⟨rfl, hnone, ?_, rfl, ?_⟩
  · rw [get_item.eq_def]
    simp only [hnone]
  · intro j hj
    rw [dictLookup_dictDelete, if_neg hj]

/-- Claim C3: in any reachable state, for an item owned by user A, an update
or delete attempted by a different registered user B fails with the
Forbidden error (status 403) and leaves the whole state — in particular the
item — unchanged. -/
theorem nonowner_mutation_forbidden (ops : List Op) (ua ub : String)
    (ra rb : UserRecord) (item_id : Nat) (stored : ItemRecord) (newFields : ItemCreate)
    (ha : dictLookup (runOps ops).users_db ua = some ra)
    (hb : dictLookup (runOps ops).users_db ub = some rb)
    (hne : ua ≠ ub)
    (hit : dictLookup (runOps ops).items_db item_id = some stored)
    (hown : stored.owner_id = ra.id) :
    update_item (runOps ops) item_id newFields rb
      = (Except.error forbiddenError, runOps ops) ∧
    delete_item (runOps ops) item_id rb = (Except.error forbiddenError, runOps ops) ∧
    forbiddenError.status = 403 ∧
    dictLookup (runOps ops).items_db item_id = some stored := by
  have hinv := storeInv_runOps ops
  have hids : ra.id ≠ rb.id := userIds_ne hinv ha hb hne
  have hown2 : stored.owner_id ≠ rb.id := by
    rw [hown]
    exact hids
  refine ⟨?_, ?_, rfl, hit⟩
  · rw [update_item.eq_def, hit]
    dsimp only
    rw [if_pos hown2]
  · rw [delete_item.eq_def, hit]
    dsimp only
    rw [if_pos hown2]

/-- Claim C4: in any reachable state, UpdateItem fails NotFound (404) when
the id is absent, fails Forbidden (403) when the requester is not the stored
owner, and on an owner's request stores and returns a record carrying the
new title, description and price while preserving the item's id, owner id
and creation time, leaving all other items untouched. -/
theorem update_item_contract (ops : List Op) (item_id : Nat) (item : ItemCreate)
    (cu : UserRecord) :
    (dictLookup (runOps ops).items_db item_id = none →
      update_item (runOps ops) item_id item cu
        = (Except.error itemNotFoundError, runOps ops) ∧
      itemNotFoundError.status = 404) ∧
    (∀ stored, dictLookup (runOps ops).items_db item_id = some stored →
      stored.owner_id ≠ cu.id →
      update_item (runOps ops) item_id item cu
        = (Except.error forbiddenError, runOps ops) ∧
      forbiddenError.status = 403) ∧
    (∀ stored, dictLookup (runOps ops).items_db item_id = some stored →
      stored.owner_id = cu.id →
      (update_item (runOps ops) item_id item cu).1
        = Except.ok { title := item.title, description := item.description,
                      price := item.price, id := stored.id, owner_id := stored.owner_id,
                      created_at := stored.created_at } ∧
      dictLookup (update_item (runOps ops) item_id item cu).2.items_db item_id
        = some { title := item.title, description := item.description,
                 price := item.price, id := stored.id, owner_id := stored.owner_id,
                 created_at := stored.created_at } ∧
      (∀ j, j ≠ item_id →
        dictLookup (update_item (runOps ops) item_id item cu).2.items_db j
          = dictLookup (runOps ops).items_db j)) := by
  have hinv := storeInv_runOps ops
  refine ⟨?_, ?_, ?_⟩
  · intro hnone
    refine ⟨?_, rfl⟩
    rw [update_item.eq_def, hnone]
  · intro stored hst hown
    refine ⟨?_, rfl⟩
    rw [update_item.eq_def, hst]
    dsimp only
    rw [if_pos hown]
  · intro stored hst hown
    have hkey : stored.id = item_id := hinv.itemKeyId _ (mem_of_dictLookup hst)
    have hupd : update_item (runOps ops) item_id item cu
        = (Except.ok { title := item.title, description := item.description,
                       price := item.price, id := item_id, owner_id := cu.id,
                       created_at := stored.created_at },
           { runOps ops with
             items_db := dictInsert (runOps ops).items_db item_id
               { title := item.title, description := item.description,
                 price := item.price, id := item_id, owner_id := cu.id,
                 created_at := stored.created_at } }) := by
      rw [update_item.eq_def, hst]
      dsimp only
      rw [if_neg (fun hne => hne hown)]
    rw [hupd, hkey, hown]
    exact ⟨rfl, dictLookup_dictInsert_self _ _ _,
      fun j hj => dictLookup_dictInsert_ne _ _ hj⟩

/-- Claim C1 (violated by the code): after alice creates items 1 and 2 and
deletes item 1, `len(items_db) + 1 = 2`, so the next CreateItem is assigned
id 2 — an id still held by the stored Gadget — and silently overwrites that
item: the store afterwards holds a single record, the new Gizmo, under the
reused id 2. -/
theorem item_id_reused_after_delete :
    (runOps idReuseOps).items_db.map Prod.fst = [2] ∧
    (dictLookup (runOps idReuseOps).items_db 2).map ItemRecord.title = some "Gadget" ∧
    (create_item 4 (runOps idReuseOps) gizmoCreate aliceStored).1
      = Except.ok { title := "Gizmo", description := none, price := 7, id := 2,
                    owner_id := 1, created_at := 4 } ∧
    (dictLookup (runOps (idReuseOps ++ [Op.opCreateItem 4 "alice" gizmoCreate])).items_db 2).map
        ItemRecord.title = some "Gizmo" ∧
    (runOps (idReuseOps ++ [Op.opCreateItem 4 "alice" gizmoCreate])).items_db.length = 1 := by
  decide

/-- Claim C5: the serialized User view returned by Register, WhoAmI and
ListUsers never contains a `password` or `passwordHash` field. -/
theorem user_views_never_expose_password (nowT : Nat) (st : AppState) (user : UserCreate)
    (token : Jwt) :
    (∀ resp st2, registerEndpoint nowT st user = (Except.ok resp, st2) →
      "password" ∉ resp.map Prod.fst ∧ "passwordHash" ∉ resp.map Prod.fst) ∧
    (∀ resp, read_users_me nowT st token = Except.ok resp →
      "password" ∉ resp.map Prod.fst ∧ "passwordHash" ∉ resp.map Prod.fst) ∧
    (∀ resp, resp ∈ get_users st →
      "password" ∉ resp.map Prod.fst ∧ "passwordHash" ∉ resp.map Prod.fst) := by
  have hser : ∀ r : UserRecord, "password" ∉ (serializeUser r).map Prod.fst ∧
      "passwordHash" ∉ (serializeUser r).map Prod.fst := by
    intro r
    rw [serializeUser_keys]
    constructor <;> decide
  refine ⟨?_, ?_, ?_⟩
  · intro resp st2 h
    rw [registerEndpoint] at h
    cases hr : (register nowT st user).1 with
    | error e =>
      rw [hr] at h
      simp [Except.map] at h
    | ok r =>
      rw [hr] at h
      simp only [Except.map, Prod.mk.injEq, Except.ok.injEq] at h
      rw [← h.1]
      exact hser r
  · intro resp h
    rw [read_users_me] at h
    cases hg : get_current_user nowT st token with
    | error e =>
      rw [hg] at h
      simp [Except.map] at h
    | ok r =>
      rw [hg] at h
      simp only [Except.map, Except.ok.injEq] at h
      rw [← h]
      exact hser r
  · intro resp h
    rw [get_users] at h
    obtain ⟨r, _, rfl⟩ := List.mem_map.mp h
    exact hser r

/-- Claim C6 counterexample: the uniform login failure carries the detail
message "Incorrect username or password" with a capital I, not the lowercase
message the claim states. -/
theorem login_error_message_not_lowercase :
    login 0 initialState { username := "alice", password := "pw" }
      = Except.error { status := 401, detail := "Incorrect username or password",
                       wwwAuthenticate := some "Bearer" } ∧
    login 0 initialState { username := "alice", password := "pw" }
      ≠ Except.error { status := 401, detail := "incorrect username or password",
                       wwwAuthenticate := some "Bearer" } := by
  decide

/-- Claim C6 (amended): a login with an unknown username and a login with a
known username but failing password verification produce exactly the same
Unauthorized error — status 401, detail "Incorrect username or password" —
so the two failure causes are indistinguishable to the caller. -/
theorem login_failures_indistinguishable (nowT : Nat) (st : AppState) (creds : UserLogin) :
    (dictLookup st.users_db creds.username = none →
      login nowT st creds = Except.error loginUnauthorizedError) ∧
    (∀ u, dictLookup st.users_db creds.username = some u →
      verify_password creds.password u.password = false →
      login nowT st creds = Except.error loginUnauthorizedError) ∧
    loginUnauthorizedError.status = 401 ∧
    loginUnauthorizedError.detail = "Incorrect username or password" := by
  refine ⟨?_, ?_, rfl, rfl⟩
  · intro h
    rw [login.eq_def, h]
  · intro u hu hv
    rw [login.eq_def, hu]
    dsimp only
    rw [if_neg (by simp [hv])]

/-- Claim C7: for non-negative `skip` and `limit`, ListItems returns exactly
the sub-range `[skip, skip + limit)` of the insertion-ordered item store,
never erroring; with the defaults `skip = 0, limit = 10` and exactly three
stored items it returns all three in creation order. -/
theorem get_items_pagination (st : AppState) (skip limit : Nat) :
    get_items st (skip : Int) (limit : Int)
      = ((dictValues st.items_db).drop skip).take limit ∧
    (st.items_db.length = 3 → get_items st 0 10 = dictValues st.items_db) := by
  have main : ∀ sk li : Nat,
      get_items st (sk : Int) (li : Int) = ((dictValues st.items_db).drop sk).take li := by
    intro sk li
    rw [get_items, pySlice]
    have hsum : (sk : Int) + (li : Int) = ((sk + li : Nat) : Int) := by push_cast; ring
    rw [hsum, pyBound_natCast, pyBound_natCast]
    rw [show (dictValues st.items_db).take (min (sk + li) (dictValues st.items_db).length)
        = (dictValues st.items_db).take (sk + li) by
      rw [List.take_eq_take]; omega]
    by_cases hle : sk ≤ (dictValues st.items_db).length
    · rw [min_eq_left hle]
      exact (List.take_drop sk li _).symm
    · rw [min_eq_right (le_of_not_le hle)]
      rw [List.drop_eq_nil_of_le (by simp [List.length_take]),
        List.drop_eq_nil_of_le (by omega), List.take_nil]
  refine ⟨main skip limit, ?_⟩
  intro h3
  have h := main 0 10
  have hlen : (dictValues st.items_db).length = 3 := by
    rw [dictValues, List.length_map, h3]
  rw [show ((0 : Nat) : Int) = (0 : Int) from rfl,
    show ((10 : Nat) : Int) = (10 : Int) from rfl] at h
  rw [h, List.drop_zero, List.take_of_length_le (by omega)]

/-- Claim C8: token verification fails exactly on a malformed token, a wrong
signature, or an embedded expiry not in the future, and otherwise succeeds
returning the embedded claim set (hence the subject); a token issued with a
30-minute TTL verifies at issuance time and fails at any time at or past its
expiry. -/
theorem token_verification_characterization (secret : String) (nowT : Nat) :
    (∀ raw, jwt_decode (Jwt.malformed raw) secret nowT = Except.error JwtError.decodeError) ∧
    (∀ p sig, sig ≠ hs256Sign secret p →
      jwt_decode (Jwt.signed p sig) secret nowT = Except.error JwtError.invalidSignature) ∧
    (∀ p e, p.exp = some e → e ≤ nowT →
      jwt_decode (Jwt.signed p (hs256Sign secret p)) secret nowT
        = Except.error JwtError.expiredSignature) ∧
    (∀ p, (∀ e, p.exp = some e → nowT < e) →
      jwt_decode (Jwt.signed p (hs256Sign secret p)) secret nowT = Except.ok p) ∧
    (∀ s, jwt_decode
        (create_access_token nowT { sub := some s, exp := none } (some (30 * 60)))
        SECRET_KEY nowT
      = Except.ok { sub := some s, exp := some (nowT + 30 * 60) }) ∧
    (∀ s t, nowT + 30 * 60 ≤ t →
      jwt_decode
        (create_access_token nowT { sub := some s, exp := none } (some (30 * 60)))
        SECRET_KEY t
      = Except.error JwtError.expiredSignature) := by
  refine ⟨fun raw => rfl, ?_, ?_, ?_, ?_, ?_⟩
  · intro p sig hsig
    rw [jwt_decode.eq_def]
    dsimp only
    rw [if_pos hsig]
  · intro p e hexp hle
    rw [jwt_decode.eq_def]
    dsimp only
    rw [if_neg (by simp), hexp]
    dsimp only
    rw [if_pos hle]
  · intro p hfut
    rw [jwt_decode.eq_def]
    dsimp only
    rw [if_neg (by simp)]
    cases hexp : p.exp with
    | none => rfl
    | some e =>
      dsimp only
      rw [if_neg (by exact Nat.not_le.mpr (hfut e hexp))]
  · intro s
    simp only [create_access_token, jwt_encode, jwt_decode]
    rw [if_neg (by simp)]
    rw [if_neg (by omega)]
  · intro s t ht
    simp only [create_access_token, jwt_encode, jwt_decode]
    rw [if_neg (by simp)]
    rw [if_pos ht]

/-- Claim C9: token issuance embeds the absolute expiry now + ttl when a ttl
is supplied and now + 15 minutes otherwise; Login always supplies a
30-minute ttl, so every token it issues expires 30 minutes after issuance. -/
theorem token_expiry_policy (nowT : Nat) (data : TokenPayload) (ttl : Nat) (st : AppState)
    (creds : UserLogin) :
    create_access_token nowT data (some ttl)
      = jwt_encode { data with exp := some (nowT + ttl) } SECRET_KEY ∧
    create_access_token nowT data none
      = jwt_encode { data with exp := some (nowT + 15 * 60) } SECRET_KEY ∧
    (∀ u tok, dictLookup st.users_db creds.username = some u →
      login nowT st creds = Except.ok tok →
      tok.access_token
        = jwt_encode { sub := some u.username, exp := some (nowT + 30 * 60) } SECRET_KEY) := by
  refine ⟨rfl, rfl, ?_⟩
  intro u tok hu hlog
  rw [login.eq_def, hu] at hlog
  dsimp only at hlog
  by_cases hv : verify_password creds.password u.password
  · rw [if_pos hv] at hlog
    injection hlog with h
    rw [← h]
    rfl
  · rw [if_neg hv] at hlog
    exact absurd hlog (by simp)

/-! ## Witnesses -/

/-- Witness for C2: duplicate registration of alice is rejected concretely. -/
theorem register_duplicate_username_rejected_witness :
    register 5 stAlice aliceCreate = (Except.error usernameTakenError, stAlice) ∧
    usernameTakenError.status = 400 ∧
    dictLookup stAlice.users_db aliceCreate.username = some aliceStored :=
  register_duplicate_username_rejected 0 5 initialState stAlice aliceCreate aliceCreate
    aliceStored (by decide) rfl

/-- Witness for C3: bob can neither update nor delete alice's Widget. -/
theorem nonowner_mutation_forbidden_witness :
    update_item (runOps twoUserOps) 1 gadgetCreate bobStored
      = (Except.error forbiddenError, runOps twoUserOps) ∧
    delete_item (runOps twoUserOps) 1 bobStored
      = (Except.error forbiddenError, runOps twoUserOps) ∧
    forbiddenError.status = 403 ∧
    dictLookup (runOps twoUserOps).items_db 1 = some widgetStored :=
  nonowner_mutation_forbidden twoUserOps "alice" "bob" aliceStored bobStored 1 widgetStored
    gadgetCreate (by decide) (by decide) (by decide) (by decide) (by decide)

/-- Witness for C4: the three UpdateItem branches at concrete inputs. -/
theorem update_item_contract_witness :
    update_item (runOps twoUserOps) 7 gadgetCreate aliceStored
      = (Except.error itemNotFoundError, runOps twoUserOps) ∧
    update_item (runOps twoUserOps) 1 gadgetCreate bobStored
      = (Except.error forbiddenError, runOps twoUserOps) ∧
    (update_item (runOps twoUserOps) 1 gadgetCreate aliceStored).1
      = Except.ok { title := "Gadget", description := some "small", price := 5,
                    id := widgetStored.id, owner_id := widgetStored.owner_id,
                    created_at := widgetStored.created_at } :=
  ⟨((update_item_contract twoUserOps 7 gadgetCreate aliceStored).1 (by decide)).1,
   ((update_item_contract twoUserOps 1 gadgetCreate bobStored).2.1 widgetStored
      (by decide) (by decide)).1,
   ((update_item_contract twoUserOps 1 gadgetCreate aliceStored).2.2 widgetStored
      (by decide) (by decide)).1⟩

/-- Witness for C5: concrete Register, WhoAmI and ListUsers responses for
alice contain no password field. -/
theorem user_views_never_expose_password_witness :
    ("password" ∉ (serializeUser aliceStored).map Prod.fst ∧
     "passwordHash" ∉ (serializeUser aliceStored).map Prod.fst) ∧
    ("password" ∉ (serializeUser aliceStored).map Prod.fst ∧
     "passwordHash" ∉ (serializeUser aliceStored).map Prod.fst) ∧
    ("password" ∉ (serializeUser aliceStored).map Prod.fst ∧
     "passwordHash" ∉ (serializeUser aliceStored).map Prod.fst) :=
  ⟨(user_views_never_expose_password 0 initialState aliceCreate (Jwt.malformed "x")).1
      (serializeUser aliceStored) stAlice (by decide),
   (user_views_never_expose_password 0 stAlice aliceCreate
      (jwt_encode { sub := some "alice", exp := none } SECRET_KEY)).2.1
      (serializeUser aliceStored) (by decide),
   (user_views_never_expose_password 0 stAlice aliceCreate (Jwt.malformed "x")).2.2
      (serializeUser aliceStored) (by decide)⟩

/-- Witness for C6 (amended): an unknown username and a wrong password for
alice produce the identical Unauthorized error. -/
theorem login_failures_indistinguishable_witness :
    login 0 stAlice { username := "nobody", password := "pw" }
      = Except.error loginUnauthorizedError ∧
    login 0 stAlice { username := "alice", password := "wrongpassword" }
      = Except.error loginUnauthorizedError :=
  ⟨(login_failures_indistinguishable 0 stAlice
      { username := "nobody", password := "pw" }).1 (by decide),
   (login_failures_indistinguishable 0 stAlice
      { username := "alice", password := "wrongpassword" }).2.1 aliceStored
      (by decide) (by decide)⟩

/-- Witness for C7: pagination over the three-item trace. -/
theorem get_items_pagination_witness :
    get_items (runOps threeItemOps) 2 5
      = ((dictValues (runOps threeItemOps).items_db).drop 2).take 5 ∧
    get_items (runOps threeItemOps) 0 10 = dictValues (runOps threeItemOps).items_db :=
  ⟨(get_items_pagination (runOps threeItemOps) 2 5).1,
   (get_items_pagination (runOps threeItemOps) 0 10).2 (by decide)⟩

/-- Witness for C8: each verification branch at concrete tokens and times. -/
theorem token_verification_characterization_witness :
    jwt_decode (Jwt.malformed "zz") "k" 0 = Except.error JwtError.decodeError ∧
    jwt_decode (Jwt.signed { sub := some "alice", exp := some 9 } "bad") "k" 0
      = Except.error JwtError.invalidSignature ∧
    jwt_decode (Jwt.signed { sub := some "alice", exp := some 9 }
        (hs256Sign "k" { sub := some "alice", exp := some 9 })) "k" 9
      = Except.error JwtError.expiredSignature ∧
    jwt_decode (Jwt.signed { sub := some "alice", exp := none }
        (hs256Sign "k" { sub := some "alice", exp := none })) "k" 0
      = Except.ok { sub := some "alice", exp := none } ∧
    jwt_decode (create_access_token 0 { sub := some "alice", exp := none } (some (30 * 60)))
        SECRET_KEY 0
      = Except.ok { sub := some "alice", exp := some (0 + 30 * 60) } ∧
    jwt_decode (create_access_token 0 { sub := some "alice", exp := none } (some (30 * 60)))
        SECRET_KEY 1800
      = Except.error JwtError.expiredSignature :=
  ⟨(token_verification_characterization "k" 0).1 "zz",
   (token_verification_characterization "k" 0).2.1
      { sub := some "alice", exp := some 9 } "bad" (by decide),
   (token_verification_characterization "k" 9).2.2.1
      { sub := some "alice", exp := some 9 } 9 rfl (by decide),
   (token_verification_characterization "k" 0).2.2.2.1
      { sub := some "alice", exp := none } (fun e he => Option.noConfusion he),
   (token_verification_characterization "k" 0).2.2.2.2.1 "alice",
   (token_verification_characterization "k" 0).2.2.2.2.2 "alice" 1800 (by decide)⟩

/-- Witness for C9: concrete issuance with and without a ttl, and a concrete
successful login for alice carrying a 30-minute expiry. -/
theorem token_expiry_policy_witness :
    create_access_token 3 { sub := some "alice", exp := none } (some 60)
      = jwt_encode { sub := some "alice", exp := some (3 + 60) } SECRET_KEY ∧
    create_access_token 3 { sub := some "alice", exp := none } none
      = jwt_encode { sub := some "alice", exp := some (3 + 15 * 60) } SECRET_KEY ∧
    ({ access_token := jwt_encode { sub := some "alice", exp := some (7 + 30 * 60) } SECRET_KEY,
       token_type := "bearer" } : TokenResponse).access_token
      = jwt_encode { sub := some "alice", exp := some (7 + 30 * 60) } SECRET_KEY :=
  ⟨(token_expiry_policy 3 { sub := some "alice", exp := none } 60 stAlice
      { username := "alice", password := "longenough1" }).1,
   (token_expiry_policy 3 { sub := some "alice", exp := none } 60 stAlice
      { username := "alice", password := "longenough1" }).2.1,
   (token_expiry_policy 7 { sub := none, exp := none } 0 stAlice
      { username := "alice", password := "longenough1" }).2.2 aliceStored
      { access_token := jwt_encode { sub := some "alice", exp := some (7 + 30 * 60) } SECRET_KEY,
        token_type := "bearer" } (by decide) (by decide)⟩

/-- Witness for C10: alice deletes her Widget; id 1 is gone, other lookups
unchanged. -/
theorem delete_item_contract_witness :
    (delete_item (runOps twoUserOps) 1 aliceStored).1 = Except.ok "Item deleted successfully" ∧
    dictLookup (delete_item (runOps twoUserOps) 1 aliceStored).2.items_db 1 = none ∧
    get_item (delete_item (runOps twoUserOps) 1 aliceStored).2 1
      = Except.error itemNotFoundError ∧
    dictLookup (delete_item (runOps twoUserOps) 1 aliceStored).2.items_db 2
      = dictLookup (runOps twoUserOps).items_db 2 := by
  have h := delete_item_contract (runOps twoUserOps) 1 aliceStored widgetStored
    (by decide) (by decide)
  exact ⟨h.1, h.2.1, h.2.2.1, h.2.2.2.2 2 (by decide)⟩
